import Mathlib

/-!
Shallow embedding of the QR-attendance FastAPI service (src/main.py, src/database.py).

Conventions of the embedding:
* `datetime` values (UTC) are natural numbers counting microseconds since the epoch;
  one calendar day is `dayLen = 86400000000` microseconds, and `date(t) = t / dayLen`.
  `datetime.combine(day, datetime.max.time())` is `day * dayLen + (dayLen - 1)`
  (Python's `max.time()` is 23:59:59.999999, i.e. the last representable microsecond).
* The two SQLAlchemy tables (`qr_codes`, `registros_escaneo` from database.py) become
  lists of rows inside a `DB` structure; autoincrement primary keys are modelled by the
  `nextQrId` / `nextScanId` counters.  An SQL `UPDATE ... WHERE id = x` becomes a map
  over the list that rewrites rows whose id equals `x`; a query `.first()` becomes
  `List.find?`.
* The NestJS directory backend is a parameter `dir : Nat → DirResult`; a `DirResult`
  distinguishes a 200 answer, a non-200 answer, and a transport failure / timeout
  (the `except` branch of `get_employee_by_id`).
* HTTP exceptions raised by a handler become `Except.error e` values; a handler that
  raises before any commit leaves the `DB` (and the notification mailbox) untouched,
  so the state is threaded through unchanged in those branches, exactly as in the code.
* The in-memory notification mailbox `last_scan_events : Dict[int, dict]` becomes a
  function `Nat → Option ScanNotification`; dictionary assignment and `dict.pop` are
  `dictInsert` and the read-and-clear pair in `get_last_scan_event`.
-/

namespace QRAttendance

/-- Microseconds per second. -/
def usPerSecond : Nat := 1000000

/-- Microseconds per UTC calendar day. -/
def dayLen : Nat := 86400000000

/-- Employee record returned by the NestJS directory (`EmployeeInfo` in main.py,
restricted to the fields the embedded handlers read). -/
structure EmployeeInfo where
  id : Nat
  name : String
  email : String
  role : String
deriving DecidableEq

/-- Outcome of one HTTP call to `GET /user/{id}` on the directory backend. -/
inductive DirResult where
  /-- 200 with a user body. -/
  | found (e : EmployeeInfo)
  /-- non-200 status (the employee does not exist). -/
  | notFound
  /-- timeout or transport failure (the `except Exception` branch). -/
  | unreachable
deriving DecidableEq

/-- `get_employee_by_id` (main.py): returns the employee on a 200, and `None` both on
a non-200 status and on any connection error (the `except` clause prints and
returns `None`). -/
def get_employee_by_id : DirResult → Option EmployeeInfo
  | .found e => some e
  | .notFound => none
  | .unreachable => none

/-- Row of the `qr_codes` table (class `QRCode` in database.py). -/
structure QRCode where
  id : Nat
  empleado_id : Nat
  qr_code_base64 : String
  creado_en : Nat
  activo : Bool
deriving DecidableEq

/-- Row of the `registros_escaneo` table (class `RegistroEscaneo` in database.py).
`hora_salida` is the nullable exit time. -/
structure RegistroEscaneo where
  id : Nat
  qr_id : Nat
  empleado_id : Nat
  fecha : Nat
  hora_entrada : Nat
  hora_salida : Option Nat
deriving DecidableEq

/-- The relational store: the two tables plus their autoincrement counters. -/
structure DB where
  qrs : List QRCode
  scans : List RegistroEscaneo
  nextQrId : Nat
  nextScanId : Nat
deriving DecidableEq

/-- One pending notification payload (the dict stored in `last_scan_events`). -/
structure ScanNotification where
  message : String
  scanType : String
  empleado_name : String
  timestamp : Nat
deriving DecidableEq

/-- The in-memory mailbox `last_scan_events : Dict[int, dict]`. -/
def Mailbox : Type := Nat → Option ScanNotification

/-- Dictionary assignment `last_scan_events[k] = v`: overwrites any pending value. -/
def dictInsert (m : Mailbox) (k : Nat) (v : ScanNotification) : Mailbox :=
  fun x => if x == k then some v else m x

/-- `GET /events/last-scan/{user_id}` (main.py): `last_scan_events.pop(user_id, None)`,
returning the pending payload (or `None`) and the mailbox with that slot cleared. -/
def get_last_scan_event (user_id : Nat) (events : Mailbox) :
    Option ScanNotification × Mailbox :=
  (events user_id, fun x => if x == user_id then none else events x)

/-- `generate_qr_code` (main.py), on the `QR_AVAILABLE = False` path: the rendered
payload is a placeholder string embedding the row id. -/
def generate_qr_code (qr_id : Nat) : String :=
  "QR_PLACEHOLDER_ID:" ++ toString qr_id

/-- The query `QRCode.id == qr_id` followed by `.first()`. -/
def findQrById (db : DB) (qr_id : Nat) : Option QRCode :=
  db.qrs.find? (fun q => q.id == qr_id)

/-- Row predicate `QRCode.empleado_id == empleado_id, QRCode.activo == True`. -/
def activePredFor (empleado_id : Nat) (q : QRCode) : Bool :=
  q.empleado_id == empleado_id && q.activo

/-- The query `QRCode.empleado_id == empleado_id, QRCode.activo == True` followed
by `.first()`. -/
def findActiveQr (db : DB) (empleado_id : Nat) : Option QRCode :=
  db.qrs.find? (activePredFor empleado_id)

/-- The day-window filter used by `record_scan` and `validate_qr`:
`fecha >= datetime.combine(hoy, min.time())` and
`fecha < datetime.combine(hoy, max.time())`, where `hoy = ahora.date()`.
Note the upper bound is the day start plus `dayLen - 1` (Python's `max.time()`). -/
def inTodayWindow (fecha ahora : Nat) : Bool :=
  decide ((ahora / dayLen) * dayLen ≤ fecha ∧
    fecha < (ahora / dayLen) * dayLen + (dayLen - 1))

/-- Row predicate of the "registro de hoy" query: same `qr_id` and `fecha` within
today's window. -/
def todayScanPred (qr_id ahora : Nat) (r : RegistroEscaneo) : Bool :=
  r.qr_id == qr_id && inTodayWindow r.fecha ahora

/-- The "registro de hoy" query of `record_scan` / `validate_qr`, with `.first()`. -/
def findTodayScan (db : DB) (qr_id ahora : Nat) : Option RegistroEscaneo :=
  db.scans.find? (todayScanPred qr_id ahora)

/-- The error classes `record_scan` can raise, with the data their `detail`
strings interpolate. -/
inductive ScanError where
  | codeNotFound
  | codeInactive
  | employeeNotFound (empleado_id : Nat)
  | tooSoonForExit
  | alreadyCompletedToday (name : String)
deriving DecidableEq

/-- HTTP status code of each `HTTPException` raised by `record_scan` (main.py). -/
def scanErrorStatus : ScanError → Nat
  | .codeNotFound => 404
  | .codeInactive => 400
  | .employeeNotFound _ => 404
  | .tooSoonForExit => 400
  | .alreadyCompletedToday _ => 400

/-- `detail` string of each `HTTPException` raised by `record_scan` (main.py). -/
def scanErrorDetail : ScanError → String
  | .codeNotFound => "Código QR no encontrado"
  | .codeInactive =>
      "Código QR desactivado - Es posible que se haya generado uno nuevo para este empleado"
  | .employeeNotFound i =>
      "Empleado con ID " ++ toString i ++ " ya no existe en el sistema"
  | .tooSoonForExit =>
      "Debe esperar al menos 1 minuto después de la entrada para poder registrar la salida."
  | .alreadyCompletedToday name =>
      name ++ " ya registró entrada y salida para hoy"

/-- Successful outcome of `record_scan`: the affected row and the `scan_type`
string (`"ENTRADA"` or `"SALIDA"`). -/
structure ScanOk where
  registro : RegistroEscaneo
  scan_type : String
deriving DecidableEq

/-- The notification message built in `record_scan`:
`f"{employee.name} ha registrado su {scan_type.lower()}."`. -/
def scanMessage (employee : EmployeeInfo) (scan_type : String) : String :=
  employee.name ++ " ha registrado su " ++ scan_type.toLower ++ "."

/-- The notification loop at the end of `record_scan`: for every directory member
with role `ADMIN`, overwrite that recipient's mailbox slot with the new event. -/
def notifyAdmins (allEmployees : List EmployeeInfo) (employee : EmployeeInfo)
    (scan_type : String) (ahora : Nat) (mailbox : Mailbox) : Mailbox :=
  (allEmployees.filter (fun u => u.role == "ADMIN")).foldl
    (fun m admin =>
      dictInsert m admin.id
        ⟨scanMessage employee scan_type, scan_type, employee.name, ahora⟩)
    mailbox

/-- `POST /qr/{qr_id}/scan` — `record_scan` (main.py).

Parameters: `dir` is the directory backend, `allEmployees` the result of
`get_all_employees()` (used only for the admin notification fan-out), `ahora`
the value of `datetime.utcnow()`.  Errors raise before any commit, so those
branches return the incoming `db` and `mailbox` unchanged. -/
def record_scan (dir : Nat → DirResult) (allEmployees : List EmployeeInfo)
    (qr_id : Nat) (ahora : Nat) (db : DB) (mailbox : Mailbox) :
    Except ScanError ScanOk × DB × Mailbox :=
  match findQrById db qr_id with
  | none => (.error .codeNotFound, db, mailbox)
  | some qr =>
    if qr.activo then
      match get_employee_by_id (dir qr.empleado_id) with
      | none => (.error (.employeeNotFound qr.empleado_id), db, mailbox)
      | some employee =>
        match findTodayScan db qr_id ahora with
        | some registro_hoy =>
          match registro_hoy.hora_salida with
          | none =>
            if ahora - registro_hoy.hora_entrada < 60 * usPerSecond then
              (.error .tooSoonForExit, db, mailbox)
            else
              let actualizado := { registro_hoy with hora_salida := some ahora }
              let db' := { db with scans := db.scans.map (fun r =>
                if r.id == registro_hoy.id then { r with hora_salida := some ahora }
                else r) }
              (.ok ⟨actualizado, "SALIDA"⟩, db',
                notifyAdmins allEmployees employee "SALIDA" ahora mailbox)
          | some _ =>
            (.error (.alreadyCompletedToday employee.name), db, mailbox)
        | none =>
          let nuevo : RegistroEscaneo :=
            ⟨db.nextScanId, qr_id, qr.empleado_id, ahora, ahora, none⟩
          let db' := { db with scans := db.scans ++ [nuevo],
                               nextScanId := db.nextScanId + 1 }
          (.ok ⟨nuevo, "ENTRADA"⟩, db',
            notifyAdmins allEmployees employee "ENTRADA" ahora mailbox)
    else (.error .codeInactive, db, mailbox)

/-- Error class of the issuance endpoints (404 `EmployeeNotFound`). -/
inductive IssueError where
  | employeeNotFound (empleado_id : Nat)
deriving DecidableEq

/-- `POST /qr/generate` — `generate_qr` (main.py).  If an active code exists for the
employee it is returned unchanged; otherwise a fresh active row is inserted.  The
source's two-phase insert (`qr_code_base64="temp"`, then update with the payload
rendered from the assigned id) is collapsed to its net committed effect. -/
def generate_qr (dir : Nat → DirResult) (empleado_id now : Nat) (db : DB) :
    Except IssueError QRCode × DB :=
  match get_employee_by_id (dir empleado_id) with
  | none => (.error (.employeeNotFound empleado_id), db)
  | some _ =>
    match findActiveQr db empleado_id with
    | some existing_qr => (.ok existing_qr, db)
    | none =>
      let db_qr : QRCode :=
        ⟨db.nextQrId, empleado_id, generate_qr_code db.nextQrId, now, true⟩
      (.ok db_qr, { db with qrs := db.qrs ++ [db_qr], nextQrId := db.nextQrId + 1 })

/-- The in-place deactivation `existing_qr.activo = False` committed through the ORM:
rewrite the row whose primary key matches. -/
def deactivateById (i : Nat) (q : QRCode) : QRCode :=
  if q.id == i then { q with activo := false } else q

/-- `POST /qr/login` — `regenerate_qr_for_employee` (main.py): deactivate the
currently active code if any (rows are never deleted), then insert a fresh active
code with the same two-phase payload generation as `generate_qr`. -/
def regenerate_qr_for_employee (dir : Nat → DirResult) (empleado_id now : Nat)
    (db : DB) : Except IssueError QRCode × DB :=
  match get_employee_by_id (dir empleado_id) with
  | none => (.error (.employeeNotFound empleado_id), db)
  | some _ =>
    let db1 :=
      match findActiveQr db empleado_id with
      | some existing_qr =>
          { db with qrs := db.qrs.map (deactivateById existing_qr.id) }
      | none => db
    let new_qr : QRCode :=
      ⟨db1.nextQrId, empleado_id, generate_qr_code db1.nextQrId, now, true⟩
    (.ok new_qr, { db1 with qrs := db1.qrs ++ [new_qr],
                            nextQrId := db1.nextQrId + 1 })

/-- A Python runtime error escaping a handler (surfaced by FastAPI as a 500). -/
inductive PyError where
  /-- `UnboundLocalError`: a local variable referenced before assignment. -/
  | unboundLocal
deriving DecidableEq

/-- Body of the 200 response of `GET /qr/{qr_id}/validate`. -/
structure ValidationResponse where
  valid : Bool
  message : String
  accion : Option String
deriving DecidableEq

/-- Zero-padded two-digit rendering used by `strftime`. -/
def pad2 (n : Nat) : String :=
  if n < 10 then "0" ++ toString n else toString n

/-- `strftime('%H:%M:%S')` of a timestamp. -/
def hhmmss (t : Nat) : String :=
  let s := (t % dayLen) / usPerSecond
  pad2 (s / 3600) ++ ":" ++ pad2 ((s % 3600) / 60) ++ ":" ++ pad2 (s % 60)

/-- `GET /qr/{qr_id}/validate` — `validate_qr` (main.py).

The source's code-not-found branch constructs a `ValidationResponse` that reads the
local `employee` before it is assigned (and `qr_code.empleado_id` on `None`), so at
runtime that branch raises `UnboundLocalError` instead of returning; it is embedded
as the `.error .unboundLocal` outcome.  Note the handler never tests `qr_code.activo`:
an inactive code follows the same path as an active one. -/
def validate_qr (dir : Nat → DirResult) (qr_id ahora : Nat) (db : DB) :
    Except PyError ValidationResponse :=
  match findQrById db qr_id with
  | none => .error .unboundLocal
  | some qr =>
    match get_employee_by_id (dir qr.empleado_id) with
    | none =>
        .ok ⟨false,
          "Empleado con ID " ++ toString qr.empleado_id ++ " ya no existe en el sistema",
          none⟩
    | some employee =>
      match findTodayScan db qr_id ahora with
      | some registro_hoy =>
        match registro_hoy.hora_salida with
        | none =>
            .ok ⟨true,
              "Registrará salida de " ++ employee.name ++ " - Entrada: " ++
                hhmmss registro_hoy.hora_entrada,
              some "SALIDA"⟩
        | some _ =>
            .ok ⟨true, employee.name ++ " ya registró entrada y salida hoy",
              some "COMPLETADO"⟩
      | none =>
          .ok ⟨true, "Registrará entrada de " ++ employee.name, some "ENTRADA"⟩

/-- Descending insertion used to model `order_by(desc(RegistroEscaneo.fecha))`. -/
def insertDesc (r : RegistroEscaneo) : List RegistroEscaneo → List RegistroEscaneo
  | [] => [r]
  | x :: xs => if x.fecha ≤ r.fecha then r :: x :: xs else x :: insertDesc r xs

/-- Sort by `fecha` descending, modelling the SQL `ORDER BY fecha DESC`. -/
def sortByFechaDesc : List RegistroEscaneo → List RegistroEscaneo
  | [] => []
  | x :: xs => insertDesc x (sortByFechaDesc xs)

/-- `GET /admin/empleado/{empleado_id}/escaneos` — `get_employee_scans` (main.py):
404 if the employee does not resolve, otherwise all of that employee's scan rows
ordered by `fecha` descending. -/
def get_employee_scans (dir : Nat → DirResult) (empleado_id : Nat) (db : DB) :
    Except IssueError (List RegistroEscaneo) :=
  match get_employee_by_id (dir empleado_id) with
  | none => .error (.employeeNotFound empleado_id)
  | some _ =>
      .ok (sortByFechaDesc (db.scans.filter (fun r => r.empleado_id == empleado_id)))

/-- Error classes of the legacy alias `POST /tokens/{qr_id}/record_scan`. -/
inductive LegacyError where
  /-- `int(qr_id)` raised `ValueError` → 400 "ID de QR inválido". -/
  | invalidId
  /-- any exception escaping the delegated `record_scan` — including every
  `HTTPException` it raises — caught by `except Exception` → 500 with `str(e)`. -/
  | internal (orig : ScanError)
deriving DecidableEq

/-- HTTP status of the legacy endpoint's errors. -/
def legacyStatus : LegacyError → Nat
  | .invalidId => 400
  | .internal _ => 500

/-- `detail` of the legacy endpoint's errors; the 500 carries the delegated
exception rendered as a string. -/
def legacyDetail : LegacyError → String
  | .invalidId => "ID de QR inválido"
  | .internal e => scanErrorDetail e

/-- `POST /tokens/{qr_id}/record_scan` — `legacy_record_scan` (main.py).
`qr_id_parsed` is the result of `int(qr_id)` on the path parameter: `none` models a
`ValueError` (non-integer id).  On a parsed id the handler delegates to
`record_scan`; any `HTTPException` the latter raises is swallowed by the trailing
`except Exception` and re-raised as a 500. -/
def legacy_record_scan (dir : Nat → DirResult) (allEmployees : List EmployeeInfo)
    (qr_id_parsed : Option Nat) (ahora : Nat) (db : DB) (mailbox : Mailbox) :
    Except LegacyError ScanOk × DB × Mailbox :=
  match qr_id_parsed with
  | none => (.error .invalidId, db, mailbox)
  | some qr_id =>
    match record_scan dir allEmployees qr_id ahora db mailbox with
    | (.error e, db', mb') => (.error (.internal e), db', mb')
    | (.ok s, db', mb') => (.ok s, db', mb')

/-- Kind of issuance operation for invariant statements. -/
inductive OpKind where
  | issue
  | rotate
deriving DecidableEq

/-- One issuance-side operation: `POST /qr/generate` or `POST /qr/login`, together
with the directory state and clock observed during that call. -/
structure Op where
  dir : Nat → DirResult
  kind : OpKind
  empleado_id : Nat
  now : Nat

/-- State transition of one issuance operation (response discarded). -/
def applyOp (db : DB) (op : Op) : DB :=
  match op.kind with
  | .issue => (generate_qr op.dir op.empleado_id op.now db).2
  | .rotate => (regenerate_qr_for_employee op.dir op.empleado_id op.now db).2

/-- Number of rows with `activo = true` for one employee. -/
def activeCountFor (db : DB) (emp : Nat) : Nat :=
  db.qrs.countP (activePredFor emp)

/-- The single-active-code invariant: at most one active row per employee. -/
def SingleActive (db : DB) : Prop :=
  ∀ emp, activeCountFor db emp ≤ 1

/-! ### Fixtures used by the concrete witnesses -/

/-- A regular directory employee. -/
def eAna : EmployeeInfo := ⟨42, "Ana Lopez", "ana@empresa.com", "USER"⟩

/-- A privileged directory member. -/
def eAdmin : EmployeeInfo := ⟨7, "Root Admin", "root@empresa.com", "ADMIN"⟩

/-- A directory in which only employee 42 resolves. -/
def dirOk : Nat → DirResult := fun i => if i == 42 then .found eAna else .notFound

/-- A directory whose every lookup times out / fails at the transport level. -/
def dirDown : Nat → DirResult := fun _ => .unreachable

/-- The empty mailbox. -/
def mb0 : Mailbox := fun _ => none

/-- An active code row (id 1) for employee 42. -/
def qrRow1 : QRCode := ⟨1, 42, generate_qr_code 1, 0, true⟩

/-- A store holding one active code (id 1) for employee 42 and no scans. -/
def dbOneCode : DB := ⟨[qrRow1], [], 2, 1⟩

/-- 09:00:00 UTC on the epoch day, in microseconds. -/
def t0900 : Nat := 32400000000

/-- 09:00:30 UTC on the epoch day, in microseconds. -/
def t0900_30 : Nat := 32430000000

/-- An open scan record for code 1: entry at 09:00:00, no exit. -/
def openScanRow : RegistroEscaneo := ⟨1, 1, 42, t0900, t0900, none⟩

/-- A store holding code 1 (active, employee 42) with today's record open. -/
def dbOpenScan : DB := ⟨[qrRow1], [openScanRow], 2, 2⟩

/-- The same code row with `activo = false`. -/
def qrRow1Inactive : QRCode := ⟨1, 42, generate_qr_code 1, 0, false⟩

/-- A store holding one inactive code (id 1) for employee 42 and no scans. -/
def dbInactiveCode : DB := ⟨[qrRow1Inactive], [], 2, 1⟩

/-- 09:01:00 UTC on the epoch day (exactly 60 seconds after `t0900`). -/
def t0901 : Nat := 32460000000

/-- 10:00:00 UTC on the epoch day, in microseconds. -/
def t1000 : Nat := 36000000000

/-- 23:58:00 UTC on the epoch day, in microseconds. -/
def t2358 : Nat := 86280000000

/-- 00:05:00 UTC on the day after the epoch day, in microseconds. -/
def t0005 : Nat := 86700000000

/-- An open scan record for code 1 whose entry is at 23:58:00 of the epoch day. -/
def lateOpenRow : RegistroEscaneo := ⟨1, 1, 42, t2358, t2358, none⟩

/-- A store holding code 1 (active, employee 42) with that late record open. -/
def dbLateOpen : DB := ⟨[qrRow1], [lateOpenRow], 2, 2⟩

/-- A concrete sequence of issuance operations: issue, rotate, issue, and a rotate
attempted while the directory is down. -/
def ops3 : List Op :=
  [⟨dirOk, .issue, 42, 1⟩, ⟨dirOk, .rotate, 42, 2⟩, ⟨dirOk, .issue, 42, 3⟩,
   ⟨dirDown, .rotate, 42, 4⟩]

/-! ### Generic facts about the day window and the store -/

theorem sameDay_of_inTodayWindow {f a : Nat} (h : inTodayWindow f a = true) :
    f / dayLen = a / dayLen := by
  unfold inTodayWindow at h
  rw [decide_eq_true_eq] at h
  obtain ⟨h1, h2⟩ := h
  apply Nat.div_eq_of_lt_le h1
  calc f < a / dayLen * dayLen + (dayLen - 1) := h2
    _ ≤ a / dayLen * dayLen + dayLen := by omega
    _ = (a / dayLen + 1) * dayLen := by ring

theorem inTodayWindow_congr {a b : Nat} (x : Nat) (h : a / dayLen = b / dayLen) :
    inTodayWindow x a = inTodayWindow x b := by
  unfold inTodayWindow
  rw [h]

theorem todayScanPred_congr (qr_id : Nat) {a b : Nat} (h : a / dayLen = b / dayLen)
    (r : RegistroEscaneo) : todayScanPred qr_id a r = todayScanPred qr_id b r := by
  unfold todayScanPred
  rw [inTodayWindow_congr r.fecha h]

theorem find?_ext {α : Type} {p q : α → Bool} (h : ∀ a, p a = q a) :
    ∀ l : List α, l.find? p = l.find? q := by
  intro l
  induction l with
  | nil => rfl
  | cons x xs ih =>
    by_cases hx : p x = true
    · rw [List.find?_cons_of_pos _ hx, List.find?_cons_of_pos _ ((h x) ▸ hx)]
    · rw [List.find?_cons_of_neg _ hx, List.find?_cons_of_neg _ ((h x) ▸ hx), ih]

theorem findTodayScan_congr (db : DB) (qr_id : Nat) {a b : Nat}
    (h : a / dayLen = b / dayLen) :
    findTodayScan db qr_id a = findTodayScan db qr_id b := by
  unfold findTodayScan
  exact find?_ext (todayScanPred_congr qr_id h) db.scans

/-! ### Claim theorems -/

/-- C6: for every recipient of the notification mailbox, two successive posts to the
same recipient with no take in between leave exactly one deliverable payload — the
second one; a take returns that payload and clears the slot, so a subsequent take
with no intervening post returns none. -/
theorem mailbox_overwrite_single_take (m : Mailbox) (r : Nat)
    (p1 p2 : ScanNotification) :
    (dictInsert (dictInsert m r p1) r p2) r = some p2 ∧
    (get_last_scan_event r (dictInsert (dictInsert m r p1) r p2)).1 = some p2 ∧
    (get_last_scan_event r
      (get_last_scan_event r (dictInsert (dictInsert m r p1) r p2)).2).1 = none := by
  simp [dictInsert, get_last_scan_event]

/-- C7: issuance is idempotent — when the employee resolves in the directory and an
active code already exists, `POST /qr/generate` returns that code unchanged (still
active) and leaves the store untouched, inserting no new row. -/
theorem generate_qr_idempotent (dir : Nat → DirResult) (empleado_id now : Nat)
    (db : DB) (e : EmployeeInfo) (q : QRCode)
    (he : get_employee_by_id (dir empleado_id) = some e)
    (hq : findActiveQr db empleado_id = some q) :
    generate_qr dir empleado_id now db = (.ok q, db) ∧ q.activo = true := by
  refine ⟨by simp [generate_qr, he, hq], ?_⟩
  unfold findActiveQr at hq
  have h := List.find?_some hq
  simp [activePredFor] at h
  exact h.2

/-- Witness for C7 at a concrete store: employee 42 resolves, code 1 is active, and
the call returns code 1 with the store unchanged. -/
theorem generate_qr_idempotent_witness :
    get_employee_by_id (dirOk 42) = some eAna ∧
    findActiveQr dbOneCode 42 = some ⟨1, 42, generate_qr_code 1, 0, true⟩ ∧
    (generate_qr dirOk 42 5 dbOneCode =
        (.ok ⟨1, 42, generate_qr_code 1, 0, true⟩, dbOneCode) ∧
      (⟨1, 42, generate_qr_code 1, 0, true⟩ : QRCode).activo = true) :=
  ⟨by decide, by decide,
    generate_qr_idempotent dirOk 42 5 dbOneCode eAna _ (by decide) (by decide)⟩

/-- C2: a scan of a code with an open record for today, arriving strictly less than
60 seconds after that record's entry time, fails `TooSoonForExit` and returns the
ledger and mailbox exactly as they were: the record's exit time is still null and
no new record is created. -/
theorem record_scan_too_soon (dir : Nat → DirResult)
    (allEmployees : List EmployeeInfo) (qr_id ahora : Nat) (db : DB)
    (mailbox : Mailbox) (qr : QRCode) (e : EmployeeInfo) (r : RegistroEscaneo)
    (hq : findQrById db qr_id = some qr)
    (ha : qr.activo = true)
    (he : get_employee_by_id (dir qr.empleado_id) = some e)
    (hr : findTodayScan db qr_id ahora = some r)
    (hopen : r.hora_salida = none)
    (hsoon : ahora - r.hora_entrada < 60 * usPerSecond) :
    record_scan dir allEmployees qr_id ahora db mailbox =
      (.error .tooSoonForExit, db, mailbox) := by
  simp [record_scan, hq, ha, he, hr, hopen, hsoon]

/-- Witness for C2: entry at 09:00:00, second scan at 09:00:30 on the same day is
rejected with the store and mailbox unchanged. -/
theorem record_scan_too_soon_witness :
    findQrById dbOpenScan 1 = some qrRow1 ∧
    qrRow1.activo = true ∧
    get_employee_by_id (dirOk qrRow1.empleado_id) = some eAna ∧
    findTodayScan dbOpenScan 1 t0900_30 = some openScanRow ∧
    openScanRow.hora_salida = none ∧
    t0900_30 - openScanRow.hora_entrada < 60 * usPerSecond ∧
    record_scan dirOk [] 1 t0900_30 dbOpenScan mb0 =
      (.error .tooSoonForExit, dbOpenScan, mb0) :=
  ⟨by decide, by decide, by decide, by decide, by decide, by decide,
    record_scan_too_soon dirOk [] 1 t0900_30 dbOpenScan mb0 qrRow1 eAna openScanRow
      (by decide) (by decide) (by decide) (by decide) (by decide) (by decide)⟩

/-- C5: evaluation of `validate_qr` at the failing inputs.  On an id with no row
(id 999) the handler raises `UnboundLocalError` (HTTP 500) instead of returning a
`valid = false` body; on an inactive code it returns `valid = true` because the
handler never tests `activo`; only the employee-no-longer-resolves case returns the
structured `valid = false` result the claim describes. -/
theorem validate_qr_throws_on_missing_code :
    validate_qr dirOk 999 t0900 dbOneCode = .error .unboundLocal ∧
    validate_qr dirOk 1 t0900 dbInactiveCode =
      .ok ⟨true, "Registrará entrada de Ana Lopez", some "ENTRADA"⟩ ∧
    validate_qr (fun _ => .notFound) 1 t0900 dbOneCode =
      .ok ⟨false, "Empleado con ID 42 ya no existe en el sistema", none⟩ :=
  ⟨rfl, rfl, rfl⟩

/-- Counterexample to C8 as stated: with the directory unreachable, a scan of the
active code 1 aborts with the 404 `EmployeeNotFound` class — not a 503
service-unavailable error — and issuance does the same. -/
theorem directory_down_counterexample :
    record_scan dirDown [] 1 t0900 dbOneCode mb0 =
      (.error (.employeeNotFound 42), dbOneCode, mb0) ∧
    scanErrorStatus (.employeeNotFound 42) = 404 ∧
    scanErrorStatus (.employeeNotFound 42) ≠ 503 ∧
    generate_qr dirDown 42 5 dbOneCode = (.error (.employeeNotFound 42), dbOneCode) :=
  ⟨rfl, rfl, by decide, rfl⟩

/-- C8 amended: when the directory is unreachable during a mutation, the operation
does abort fail-closed with the store untouched, but the surfaced error class is the
404 `EmployeeNotFound` (the directory client collapses timeouts and transport
failures into "employee unresolved"), not a service-unavailable error. -/
theorem directory_down_fails_closed (dir : Nat → DirResult)
    (allEmployees : List EmployeeInfo) (qr_id ahora now emp : Nat) (db : DB)
    (mb : Mailbox) (qr : QRCode)
    (hq : findQrById db qr_id = some qr)
    (ha : qr.activo = true)
    (hun : dir qr.empleado_id = .unreachable)
    (hun2 : dir emp = .unreachable) :
    record_scan dir allEmployees qr_id ahora db mb =
      (.error (.employeeNotFound qr.empleado_id), db, mb) ∧
    scanErrorStatus (.employeeNotFound qr.empleado_id) = 404 ∧
    generate_qr dir emp now db = (.error (.employeeNotFound emp), db) ∧
    regenerate_qr_for_employee dir emp now db = (.error (.employeeNotFound emp), db) := by
  refine ⟨?_, rfl, ?_, ?_⟩
  · simp [record_scan, hq, ha, hun, get_employee_by_id]
  · simp [generate_qr, hun2, get_employee_by_id]
  · simp [regenerate_qr_for_employee, hun2, get_employee_by_id]

/-- Witness for the amended C8 at a concrete store with the directory down. -/
theorem directory_down_fails_closed_witness :
    findQrById dbOneCode 1 = some qrRow1 ∧
    qrRow1.activo = true ∧
    dirDown qrRow1.empleado_id = .unreachable ∧
    dirDown 42 = .unreachable ∧
    (record_scan dirDown [] 1 t0900 dbOneCode mb0 =
        (.error (.employeeNotFound qrRow1.empleado_id), dbOneCode, mb0) ∧
      scanErrorStatus (.employeeNotFound qrRow1.empleado_id) = 404 ∧
      generate_qr dirDown 42 5 dbOneCode = (.error (.employeeNotFound 42), dbOneCode) ∧
      regenerate_qr_for_employee dirDown 42 5 dbOneCode =
        (.error (.employeeNotFound 42), dbOneCode)) :=
  ⟨by decide, by decide, by decide, by decide,
    directory_down_fails_closed dirDown [] 1 t0900 5 42 dbOneCode mb0 qrRow1
      (by decide) (by decide) (by decide) (by decide)⟩

/-- C10: the legacy alias `POST /tokens/{id}/record_scan` does not preserve the
error classes of `record_scan`: every error the delegated handler raises (404
`CodeNotFound`/`EmployeeNotFound`, 400 `CodeInactive`/`TooSoonForExit`/
`AlreadyCompletedToday`) is re-raised as a 500 whose detail carries the original
message, and only a non-integer id yields a 400. -/
theorem legacy_record_scan_maps_errors_to_500 (dir : Nat → DirResult)
    (allEmployees : List EmployeeInfo) (n ahora : Nat) (db : DB) (mb : Mailbox)
    (e : ScanError)
    (h : (record_scan dir allEmployees n ahora db mb).1 = .error e) :
    (legacy_record_scan dir allEmployees (some n) ahora db mb).1 =
      .error (.internal e) ∧
    legacyStatus (.internal e) = 500 ∧
    legacyDetail (.internal e) = scanErrorDetail e ∧
    scanErrorStatus e ≠ 500 ∧
    legacy_record_scan dir allEmployees none ahora db mb =
      (.error .invalidId, db, mb) ∧
    legacyStatus .invalidId = 400 := by
  refine ⟨?_, rfl, rfl, ?_, rfl, rfl⟩
  · rcases hrs : record_scan dir allEmployees n ahora db mb with ⟨res, db', mb'⟩
    rw [hrs] at h
    simp at h
    subst h
    simp only [legacy_record_scan]
    rw [hrs]
  · cases e <;> simp [scanErrorStatus]

/-- Deactivating one code id never increases the number of active codes of any
employee: the rewrite only ever flips `activo` from true to false. -/
theorem deactivate_map_count_le (l : List QRCode) (i emp : Nat) :
    (l.map (deactivateById i)).countP (activePredFor emp) ≤
      l.countP (activePredFor emp) := by
  rw [List.countP_map]
  apply List.countP_mono_left
  intro x _ hx
  simp only [Function.comp_apply, deactivateById] at hx
  split at hx
  · simp [activePredFor] at hx
  · exact hx

/-- If the store satisfies the at-most-one bound for an employee and an active code
is found for that employee, deactivating the found code's id leaves no active code
for that employee. -/
theorem deactivate_found_count_zero (l : List QRCode) (emp : Nat) (q0 : QRCode)
    (hfind : l.find? (activePredFor emp) = some q0)
    (hcount : l.countP (activePredFor emp) ≤ 1) :
    (l.map (deactivateById q0.id)).countP (activePredFor emp) = 0 := by
  rw [List.find?_eq_some] at hfind
  obtain ⟨hp, as, bs, rfl, has⟩ := hfind
  have h1 : as.countP (activePredFor emp) = 0 := by
    rw [List.countP_eq_zero]
    intro a ha
    have := has a ha
    simp only [Bool.not_eq_true'] at this
    simp [this]
  have h2 : bs.countP (activePredFor emp) = 0 := by
    rw [List.countP_append, List.countP_cons] at hcount
    simp only [hp, if_true] at hcount
    omega
  have hA := deactivate_map_count_le as q0.id emp
  have hB := deactivate_map_count_le bs q0.id emp
  have h3 : activePredFor emp (deactivateById q0.id q0) = false := by
    simp [deactivateById, activePredFor]
  rw [List.map_append, List.map_cons, List.countP_append, List.countP_cons, h3]
  simp only [Bool.false_eq_true, if_false]
  omega

/-- Appending one fresh code for `empleado_id` keeps every employee's active count
at most one, provided `empleado_id` had none before and every employee was within
the bound. -/
theorem countP_append_single_le (l : List QRCode) (emp empleado_id : Nat)
    (new : QRCode) (hnew : new.empleado_id = empleado_id)
    (hzero : l.countP (activePredFor empleado_id) = 0)
    (hle : l.countP (activePredFor emp) ≤ 1) :
    (l ++ [new]).countP (activePredFor emp) ≤ 1 := by
  rw [List.countP_append, List.countP_singleton]
  by_cases hEq : empleado_id = emp
  · subst hEq
    rw [hzero]
    split <;> omega
  · have hb : (new.empleado_id == emp) = false := by
      rw [hnew]
      simpa using hEq
    have : activePredFor emp new = false := by simp [activePredFor, hb]
    rw [this]
    simp only [Bool.false_eq_true, if_false]
    omega

/-- `POST /qr/generate` preserves the single-active-code invariant. -/
theorem generate_qr_preserves_single_active (dir : Nat → DirResult)
    (empleado_id now : Nat) (db : DB) (h : SingleActive db) :
    SingleActive (generate_qr dir empleado_id now db).2 := by
  intro emp
  rcases hemp : get_employee_by_id (dir empleado_id) with _ | e
  · simpa [generate_qr, hemp] using h emp
  · rcases hfind : findActiveQr db empleado_id with _ | q
    · have hzero : db.qrs.countP (activePredFor empleado_id) = 0 := by
        rw [List.countP_eq_zero]
        exact List.find?_eq_none.mp hfind
      simp only [generate_qr, hemp, hfind, activeCountFor]
      exact countP_append_single_le db.qrs emp empleado_id _ rfl hzero (h emp)
    · simpa [generate_qr, hemp, hfind] using h emp

/-- `POST /qr/login` preserves the single-active-code invariant. -/
theorem regenerate_preserves_single_active (dir : Nat → DirResult)
    (empleado_id now : Nat) (db : DB) (h : SingleActive db) :
    SingleActive (regenerate_qr_for_employee dir empleado_id now db).2 := by
  intro emp
  rcases hemp : get_employee_by_id (dir empleado_id) with _ | e
  · simpa [regenerate_qr_for_employee, hemp] using h emp
  · rcases hfind : findActiveQr db empleado_id with _ | q0
    · have hzero : db.qrs.countP (activePredFor empleado_id) = 0 := by
        rw [List.countP_eq_zero]
        exact List.find?_eq_none.mp hfind
      simp only [regenerate_qr_for_employee, hemp, hfind, activeCountFor]
      exact countP_append_single_le db.qrs emp empleado_id _ rfl hzero (h emp)
    · have hzero : (db.qrs.map (deactivateById q0.id)).countP
          (activePredFor empleado_id) = 0 :=
        deactivate_found_count_zero db.qrs empleado_id q0 hfind (h empleado_id)
      have hle : (db.qrs.map (deactivateById q0.id)).countP (activePredFor emp) ≤ 1 :=
        le_trans (deactivate_map_count_le db.qrs q0.id emp) (h emp)
      simp only [regenerate_qr_for_employee, hemp, hfind, activeCountFor]
      exact countP_append_single_le _ emp empleado_id _ rfl hzero hle

/-- C3: after any sequence of issue (`POST /qr/generate`) and rotate
(`POST /qr/login`) operations starting from a store satisfying the invariant, at
most one `IssuedCode` row with `active = true` exists per employee. -/
theorem single_active_invariant (ops : List Op) (db : DB) (h : SingleActive db) :
    SingleActive (ops.foldl applyOp db) := by
  induction ops generalizing db with
  | nil => exact h
  | cons op rest ih =>
    refine ih (applyOp db op) ?_
    rcases hk : op.kind
    · simpa [applyOp, hk] using
        generate_qr_preserves_single_active op.dir op.empleado_id op.now db h
    · simpa [applyOp, hk] using
        regenerate_preserves_single_active op.dir op.empleado_id op.now db h

/-- Witness for C3: the invariant holds of the one-code store and is preserved
across a concrete issue/rotate/issue/rotate sequence. -/
theorem single_active_invariant_witness :
    SingleActive dbOneCode ∧ SingleActive (ops3.foldl applyOp dbOneCode) :=
  have h0 : SingleActive dbOneCode := fun emp => by
    show List.countP (activePredFor emp) [qrRow1] ≤ 1
    rw [List.countP_singleton]
    split <;> omega
  ⟨h0, single_active_invariant ops3 dbOneCode h0⟩

/-- C1: the full daily cycle for an active code whose employee resolves.  With no
record for the code in today's window, a scan at `t1` inserts a record with
`hora_entrada = t1` and `hora_salida = null` and reports `ENTRADA`; a second scan
at `t2 ≥ t1 + 60s` on the same day sets `hora_salida = t2` on that same record and
reports `SALIDA`; a third same-day scan fails `AlreadyCompletedToday` and leaves
the store and mailbox exactly as they were. -/
theorem record_scan_daily_cycle (dir : Nat → DirResult)
    (emps : List EmployeeInfo) (qr_id t1 t2 t3 : Nat) (db : DB) (mb : Mailbox)
    (qr : QRCode) (e : EmployeeInfo)
    (hq : findQrById db qr_id = some qr)
    (ha : qr.activo = true)
    (he : get_employee_by_id (dir qr.empleado_id) = some e)
    (hnone : findTodayScan db qr_id t1 = none)
    (hfresh : ∀ r ∈ db.scans, r.id < db.nextScanId)
    (hw2 : inTodayWindow t1 t2 = true)
    (hw3 : inTodayWindow t1 t3 = true)
    (hdwell : t1 + 60 * usPerSecond ≤ t2) :
    record_scan dir emps qr_id t1 db mb =
      (.ok ⟨⟨db.nextScanId, qr_id, qr.empleado_id, t1, t1, none⟩, "ENTRADA"⟩,
        { db with
            scans := db.scans ++ [⟨db.nextScanId, qr_id, qr.empleado_id, t1, t1, none⟩],
            nextScanId := db.nextScanId + 1 },
        notifyAdmins emps e "ENTRADA" t1 mb) ∧
    record_scan dir emps qr_id t2
        { db with
            scans := db.scans ++ [⟨db.nextScanId, qr_id, qr.empleado_id, t1, t1, none⟩],
            nextScanId := db.nextScanId + 1 }
        (notifyAdmins emps e "ENTRADA" t1 mb) =
      (.ok ⟨⟨db.nextScanId, qr_id, qr.empleado_id, t1, t1, some t2⟩, "SALIDA"⟩,
        { db with
            scans := db.scans ++ [⟨db.nextScanId, qr_id, qr.empleado_id, t1, t1, some t2⟩],
            nextScanId := db.nextScanId + 1 },
        notifyAdmins emps e "SALIDA" t2 (notifyAdmins emps e "ENTRADA" t1 mb)) ∧
    record_scan dir emps qr_id t3
        { db with
            scans := db.scans ++ [⟨db.nextScanId, qr_id, qr.empleado_id, t1, t1, some t2⟩],
            nextScanId := db.nextScanId + 1 }
        (notifyAdmins emps e "SALIDA" t2 (notifyAdmins emps e "ENTRADA" t1 mb)) =
      (.error (.alreadyCompletedToday e.name),
        { db with
            scans := db.scans ++ [⟨db.nextScanId, qr_id, qr.empleado_id, t1, t1, some t2⟩],
            nextScanId := db.nextScanId + 1 },
        notifyAdmins emps e "SALIDA" t2 (notifyAdmins emps e "ENTRADA" t1 mb)) := by
  have hd2 : t1 / dayLen = t2 / dayLen := sameDay_of_inTodayWindow hw2
  have hd3 : t1 / dayLen = t3 / dayLen := sameDay_of_inTodayWindow hw3
  have hfind_none2 : db.scans.find? (todayScanPred qr_id t2) = none := by
    show findTodayScan db qr_id t2 = none
    exact (findTodayScan_congr db qr_id hd2.symm).trans hnone
  have hfind_none3 : db.scans.find? (todayScanPred qr_id t3) = none := by
    show findTodayScan db qr_id t3 = none
    exact (findTodayScan_congr db qr_id hd3.symm).trans hnone
  have hq1 : findQrById
      { db with
          scans := db.scans ++ [⟨db.nextScanId, qr_id, qr.empleado_id, t1, t1, none⟩],
          nextScanId := db.nextScanId + 1 } qr_id = some qr := hq
  have hq2 : findQrById
      { db with
          scans := db.scans ++ [⟨db.nextScanId, qr_id, qr.empleado_id, t1, t1, some t2⟩],
          nextScanId := db.nextScanId + 1 } qr_id = some qr := hq
  have hfind2 : findTodayScan
      { db with
          scans := db.scans ++ [⟨db.nextScanId, qr_id, qr.empleado_id, t1, t1, none⟩],
          nextScanId := db.nextScanId + 1 } qr_id t2 =
      some ⟨db.nextScanId, qr_id, qr.empleado_id, t1, t1, none⟩ := by
    show (db.scans ++
        [(⟨db.nextScanId, qr_id, qr.empleado_id, t1, t1, none⟩ : RegistroEscaneo)]).find?
        (todayScanPred qr_id t2) = _
    rw [List.find?_append, hfind_none2]
    simp [todayScanPred, hw2]
  have hfind3 : findTodayScan
      { db with
          scans := db.scans ++ [⟨db.nextScanId, qr_id, qr.empleado_id, t1, t1, some t2⟩],
          nextScanId := db.nextScanId + 1 } qr_id t3 =
      some ⟨db.nextScanId, qr_id, qr.empleado_id, t1, t1, some t2⟩ := by
    show (db.scans ++
        [(⟨db.nextScanId, qr_id, qr.empleado_id, t1, t1, some t2⟩ : RegistroEscaneo)]).find?
        (todayScanPred qr_id t3) = _
    rw [List.find?_append, hfind_none3]
    simp [todayScanPred, hw3]
  have hnolt : ¬ (t2 - t1 < 60 * usPerSecond) := by omega
  refine ⟨?_, ?_, ?_⟩
  · simp [record_scan, hq, ha, he, hnone]
  · simp [record_scan, hq1, ha, he, hfind2, hnolt]
    refine (List.map_congr_left fun r hr => ?_).trans (List.map_id db.scans)
    rw [if_neg (Nat.ne_of_lt (hfresh r hr))]
    rfl
  · simp [record_scan, hq2, ha, he, hfind3]

/-- Witness for C1: code 1 of employee 42 scanned at 09:00:00, 09:01:00 and
10:00:00 on the same day, starting from the store with no scans. -/
theorem record_scan_daily_cycle_witness :
    findQrById dbOneCode 1 = some qrRow1 ∧
    qrRow1.activo = true ∧
    get_employee_by_id (dirOk qrRow1.empleado_id) = some eAna ∧
    findTodayScan dbOneCode 1 t0900 = none ∧
    (∀ r ∈ dbOneCode.scans, r.id < dbOneCode.nextScanId) ∧
    inTodayWindow t0900 t0901 = true ∧
    inTodayWindow t0900 t1000 = true ∧
    t0900 + 60 * usPerSecond ≤ t0901 ∧
    (record_scan dirOk [eAna, eAdmin] 1 t0900 dbOneCode mb0 =
      (.ok ⟨⟨dbOneCode.nextScanId, 1, qrRow1.empleado_id, t0900, t0900, none⟩, "ENTRADA"⟩,
        { dbOneCode with
            scans := dbOneCode.scans ++
              [⟨dbOneCode.nextScanId, 1, qrRow1.empleado_id, t0900, t0900, none⟩],
            nextScanId := dbOneCode.nextScanId + 1 },
        notifyAdmins [eAna, eAdmin] eAna "ENTRADA" t0900 mb0) ∧
    record_scan dirOk [eAna, eAdmin] 1 t0901
        { dbOneCode with
            scans := dbOneCode.scans ++
              [⟨dbOneCode.nextScanId, 1, qrRow1.empleado_id, t0900, t0900, none⟩],
            nextScanId := dbOneCode.nextScanId + 1 }
        (notifyAdmins [eAna, eAdmin] eAna "ENTRADA" t0900 mb0) =
      (.ok ⟨⟨dbOneCode.nextScanId, 1, qrRow1.empleado_id, t0900, t0900, some t0901⟩,
          "SALIDA"⟩,
        { dbOneCode with
            scans := dbOneCode.scans ++
              [⟨dbOneCode.nextScanId, 1, qrRow1.empleado_id, t0900, t0900, some t0901⟩],
            nextScanId := dbOneCode.nextScanId + 1 },
        notifyAdmins [eAna, eAdmin] eAna "SALIDA" t0901
          (notifyAdmins [eAna, eAdmin] eAna "ENTRADA" t0900 mb0)) ∧
    record_scan dirOk [eAna, eAdmin] 1 t1000
        { dbOneCode with
            scans := dbOneCode.scans ++
              [⟨dbOneCode.nextScanId, 1, qrRow1.empleado_id, t0900, t0900, some t0901⟩],
            nextScanId := dbOneCode.nextScanId + 1 }
        (notifyAdmins [eAna, eAdmin] eAna "SALIDA" t0901
          (notifyAdmins [eAna, eAdmin] eAna "ENTRADA" t0900 mb0)) =
      (.error (.alreadyCompletedToday eAna.name),
        { dbOneCode with
            scans := dbOneCode.scans ++
              [⟨dbOneCode.nextScanId, 1, qrRow1.empleado_id, t0900, t0900, some t0901⟩],
            nextScanId := dbOneCode.nextScanId + 1 },
        notifyAdmins [eAna, eAdmin] eAna "SALIDA" t0901
          (notifyAdmins [eAna, eAdmin] eAna "ENTRADA" t0900 mb0))) :=
  ⟨by decide, by decide, by decide, by decide, by decide, by decide, by decide,
    by decide,
    record_scan_daily_cycle dirOk [eAna, eAdmin] 1 t0900 t0901 t1000 dbOneCode mb0
      qrRow1 eAna (by decide) (by decide) (by decide) (by decide) (by decide)
      (by decide) (by decide) (by decide)⟩

/-- Counterexample to C4 as stated: code 1 has an open record entered at 23:58 of
day 0; a scan at 00:05 of day 1 does not set that record's exit time — the
today-lookup is keyed to the calendar date of "now", finds nothing, and a second
record (an `ENTRADA` for the new day) is created, while the 23:58 record's
`hora_salida` stays null. -/
theorem midnight_scan_counterexample :
    (record_scan dirOk [] 1 t0005 dbLateOpen mb0).1 =
      .ok ⟨⟨2, 1, 42, t0005, t0005, none⟩, "ENTRADA"⟩ ∧
    (record_scan dirOk [] 1 t0005 dbLateOpen mb0).2.1.scans =
      [lateOpenRow, ⟨2, 1, 42, t0005, t0005, none⟩] ∧
    lateOpenRow.hora_salida = none :=
  ⟨rfl, by decide, rfl⟩

/-- C4 amended: the day boundary of the today-lookup is the UTC calendar date of
"now", not of the original entry — so for a code whose only record lies outside
now's day window (e.g. entry at 23:58, scan at 00:05 the next day), the scan opens
a new `ENTRADA` record dated to the new day and the old record remains in the
ledger, unchanged and still open. -/
theorem record_scan_new_day_opens_new_record (dir : Nat → DirResult)
    (allEmployees : List EmployeeInfo) (qr_id ahora : Nat) (db : DB)
    (mb : Mailbox) (qr : QRCode) (e : EmployeeInfo) (r : RegistroEscaneo)
    (hq : findQrById db qr_id = some qr)
    (ha : qr.activo = true)
    (he : get_employee_by_id (dir qr.empleado_id) = some e)
    (hrmem : r ∈ db.scans)
    (hnone : findTodayScan db qr_id ahora = none) :
    record_scan dir allEmployees qr_id ahora db mb =
      (.ok ⟨⟨db.nextScanId, qr_id, qr.empleado_id, ahora, ahora, none⟩, "ENTRADA"⟩,
        { db with
            scans := db.scans ++
              [⟨db.nextScanId, qr_id, qr.empleado_id, ahora, ahora, none⟩],
            nextScanId := db.nextScanId + 1 },
        notifyAdmins allEmployees e "ENTRADA" ahora mb) ∧
    r ∈ (record_scan dir allEmployees qr_id ahora db mb).2.1.scans := by
  have hmain : record_scan dir allEmployees qr_id ahora db mb =
      (.ok ⟨⟨db.nextScanId, qr_id, qr.empleado_id, ahora, ahora, none⟩, "ENTRADA"⟩,
        { db with
            scans := db.scans ++
              [⟨db.nextScanId, qr_id, qr.empleado_id, ahora, ahora, none⟩],
            nextScanId := db.nextScanId + 1 },
        notifyAdmins allEmployees e "ENTRADA" ahora mb) := by
    simp [record_scan, hq, ha, he, hnone]
  refine ⟨hmain, ?_⟩
  rw [hmain]
  exact List.mem_append_left _ hrmem

/-- Witness for the amended C4 at the concrete 23:58 / 00:05 pair. -/
theorem record_scan_new_day_opens_new_record_witness :
    findQrById dbLateOpen 1 = some qrRow1 ∧
    qrRow1.activo = true ∧
    get_employee_by_id (dirOk qrRow1.empleado_id) = some eAna ∧
    lateOpenRow ∈ dbLateOpen.scans ∧
    findTodayScan dbLateOpen 1 t0005 = none ∧
    (record_scan dirOk [] 1 t0005 dbLateOpen mb0 =
        (.ok ⟨⟨dbLateOpen.nextScanId, 1, qrRow1.empleado_id, t0005, t0005, none⟩,
            "ENTRADA"⟩,
          { dbLateOpen with
              scans := dbLateOpen.scans ++
                [⟨dbLateOpen.nextScanId, 1, qrRow1.empleado_id, t0005, t0005, none⟩],
              nextScanId := dbLateOpen.nextScanId + 1 },
          notifyAdmins [] eAna "ENTRADA" t0005 mb0) ∧
      lateOpenRow ∈ (record_scan dirOk [] 1 t0005 dbLateOpen mb0).2.1.scans) :=
  ⟨by decide, by decide, by decide, by decide, by decide,
    record_scan_new_day_opens_new_record dirOk [] 1 t0005 dbLateOpen mb0 qrRow1
      eAna lateOpenRow (by decide) (by decide) (by decide) (by decide) (by decide)⟩

/-- C9: rotation preserves history — for an employee with an active code, a rotate
(`POST /qr/login`) returns a fresh active code, flips the old code's `activo` to
false (the flipped row is still present), deletes no `ScanRecord` row, and the
employee's scan history query returns exactly what it returned before. -/
theorem rotation_preserves_history (dir : Nat → DirResult) (empleado_id now : Nat)
    (db : DB) (e : EmployeeInfo) (q0 : QRCode)
    (he : get_employee_by_id (dir empleado_id) = some e)
    (hfind : findActiveQr db empleado_id = some q0) :
    (regenerate_qr_for_employee dir empleado_id now db).1 =
      .ok ⟨db.nextQrId, empleado_id, generate_qr_code db.nextQrId, now, true⟩ ∧
    { q0 with activo := false } ∈
      (regenerate_qr_for_employee dir empleado_id now db).2.qrs ∧
    (regenerate_qr_for_employee dir empleado_id now db).2.scans = db.scans ∧
    get_employee_scans dir empleado_id
        (regenerate_qr_for_employee dir empleado_id now db).2 =
      get_employee_scans dir empleado_id db := by
  have hq0mem : q0 ∈ db.qrs := List.mem_of_find?_eq_some hfind
  have hdeact : deactivateById q0.id q0 = { q0 with activo := false } := by
    simp [deactivateById]
  refine ⟨?_, ?_, ?_, ?_⟩
  · simp only [regenerate_qr_for_employee, he, hfind]
  · simp only [regenerate_qr_for_employee, he, hfind]
    exact List.mem_append_left _ (hdeact ▸ List.mem_map_of_mem _ hq0mem)
  · simp only [regenerate_qr_for_employee, he, hfind]
  · simp only [regenerate_qr_for_employee, he, hfind, get_employee_scans]

/-- Witness for C9 at a concrete store with an open scan record: rotating employee
42's code 1 keeps the scan ledger intact and the history query unchanged. -/
theorem rotation_preserves_history_witness :
    get_employee_by_id (dirOk 42) = some eAna ∧
    findActiveQr dbOpenScan 42 = some qrRow1 ∧
    ((regenerate_qr_for_employee dirOk 42 5 dbOpenScan).1 =
        .ok ⟨dbOpenScan.nextQrId, 42, generate_qr_code dbOpenScan.nextQrId, 5, true⟩ ∧
      { qrRow1 with activo := false } ∈
        (regenerate_qr_for_employee dirOk 42 5 dbOpenScan).2.qrs ∧
      (regenerate_qr_for_employee dirOk 42 5 dbOpenScan).2.scans = dbOpenScan.scans ∧
      get_employee_scans dirOk 42 (regenerate_qr_for_employee dirOk 42 5 dbOpenScan).2 =
        get_employee_scans dirOk 42 dbOpenScan) :=
  ⟨by decide, by decide,
    rotation_preserves_history dirOk 42 5 dbOpenScan eAna qrRow1
      (by decide) (by decide)⟩

/-- Witness for C10: scanning the nonexistent code 5 yields `CodeNotFound` (404)
from `record_scan`, and the legacy alias surfaces it as a 500. -/
theorem legacy_record_scan_maps_errors_to_500_witness :
    (record_scan dirOk [] 5 t0900 dbOneCode mb0).1 = .error .codeNotFound ∧
    ((legacy_record_scan dirOk [] (some 5) t0900 dbOneCode mb0).1 =
        .error (.internal .codeNotFound) ∧
      legacyStatus (.internal .codeNotFound) = 500 ∧
      legacyDetail (.internal .codeNotFound) = scanErrorDetail .codeNotFound ∧
      scanErrorStatus .codeNotFound ≠ 500 ∧
      legacy_record_scan dirOk [] none t0900 dbOneCode mb0 =
        (.error .invalidId, dbOneCode, mb0) ∧
      legacyStatus .invalidId = 400) :=
  ⟨rfl,
    legacy_record_scan_maps_errors_to_500 dirOk [] 5 t0900 dbOneCode mb0
      .codeNotFound rfl⟩

end QRAttendance
